import Mathlib

/-!
Shallow embedding of the Ops Triage Hub incident service (src/app/main.py).

Modelling conventions:
* Instants are modelled as `Int` seconds since an arbitrary epoch; the ISO
  string round-trip (`dt_to_iso` / `iso_to_dt`) is the identity on instants,
  so timestamp-valued columns hold `Int` (or `Option Int` when nullable).
* `utcnow()` is modelled by an explicit clock `clk : Nat → Int` together with a
  sample counter: the n-th call to `utcnow()` inside an operation returns
  `clk n`.  This makes the number and position of clock samples in the source
  observable.
* The store is modelled per incident: a `St` holds one incident row and its
  timeline.  SQLite commit/rollback semantics are modelled by the `Except`
  result: an `.error` outcome corresponds to `conn.close()` without
  `conn.commit()`, which discards all uncommitted writes, so the caller keeps
  the pre-call state (`apply_patch` makes this explicit).
* The timeline row id (a UUID) is opaque and never inspected, so it is
  omitted from `TimelineEvent`.
-/

namespace OpsTriage

/-- Fixed priority enum, most severe first (main.py `PRIORITIES`). -/
def PRIORITIES : List String := ["P0", "P1", "P2", "P3"]

/-- Fixed status enum (main.py `STATUSES`). -/
def STATUSES : List String := ["open", "investigating", "mitigated", "resolved"]

/-- Fixed role enum (main.py `ROLES`). -/
def ROLES : List String := ["On-call", "Ops Lead", "Support", "Engineering"]

/-- SLA budget in minutes per priority; unknown priorities default to 1440
(main.py `SLA_MINUTES` with `.get(p, 1440)`). -/
def SLA_MINUTES (p : String) : Int :=
  if p = "P0" then 30
  else if p = "P1" then 120
  else if p = "P2" then 480
  else if p = "P3" then 1440
  else 1440

def BREACH_THRESHOLD_TOTAL : Nat := 5

def AGING_THRESHOLD_24H : Nat := 5

/-- Status transition table (main.py `STATUS_TRANSITIONS`); the lookup
`STATUS_TRANSITIONS.get(old_status, [])` defaults to `[]`. -/
def STATUS_TRANSITIONS (s : String) : List String :=
  if s = "open" then ["investigating"]
  else if s = "investigating" then ["mitigated", "resolved"]
  else if s = "mitigated" then ["resolved"]
  else []

/-- Python `str.strip()` (whitespace trim on both ends; the inputs here are
ASCII, where the Python and Lean whitespace sets agree). -/
def pyStrip (s : String) : String :=
  ⟨((s.data.dropWhile Char.isWhitespace).reverse.dropWhile
      Char.isWhitespace).reverse⟩

/-- Python `str.upper()` on ASCII text. -/
def pyUpper (s : String) : String := ⟨s.data.map Char.toUpper⟩

/-- Python `str.lower()` on ASCII text. -/
def pyLower (s : String) : String := ⟨s.data.map Char.toLower⟩

/-- Python truthiness of an `Optional[str]`: `None` and `""` are falsy. -/
def truthyOpt : Option String → Bool
  | none => false
  | some s => if s = "" then false else true

/-- `minutes_between` (main.py): `int((b - a).total_seconds() // 60)`,
floor division on the signed difference in seconds. -/
def minutes_between (a b : Int) : Int := Int.fdiv (b - a) 60

/-- Caller-facing errors raised by the service, one constructor per raise
site.  In the source all are `HTTPException(400/404, detail)` distinguished by
their detail message; the spec groups them into ValidationError
(`invalidPriority` / `invalidStatus` / `invalidRole`), NotFoundError,
TransitionError (`invalidTransition`) and PreconditionError
(`resolvedByRequired` / `resolutionNotesRequired`). -/
inductive ApiError where
  | invalidPriority (p : String)
  | invalidStatus (s : String)
  | invalidRole (r : String)
  | notFound
  | invalidTransition (oldS newS : String)
  | resolvedByRequired
  | resolutionNotesRequired
deriving DecidableEq, Repr

/-- `normalize_priority` (main.py): strip, uppercase, membership check. -/
def normalize_priority (p : String) : Except ApiError String :=
  let q := pyUpper (pyStrip p)
  if q ∈ PRIORITIES then .ok q else .error (.invalidPriority q)

/-- `normalize_status` (main.py): strip, lowercase, membership check. -/
def normalize_status (s : String) : Except ApiError String :=
  let q := pyLower (pyStrip s)
  if q ∈ STATUSES then .ok q else .error (.invalidStatus q)

/-- `normalize_role` (main.py): strip, membership check. -/
def normalize_role (r : String) : Except ApiError String :=
  let q := pyStrip r
  if q ∈ ROLES then .ok q else .error (.invalidRole q)

/-- One row of the `incidents` table. -/
structure Incident where
  id : String
  title : String
  description : String
  priority : String
  status : String
  created_at : Int
  updated_at : Int
  resolved_at : Option Int
  resolved_by : Option String
  resolution_notes : Option String
deriving DecidableEq, Repr

/-- One row of the `timeline` table (the opaque UUID id column is omitted). -/
structure TimelineEvent where
  incident_id : String
  event_type : String
  created_at : Int
  old_value : Option String
  new_value : Option String
deriving DecidableEq, Repr

/-- The store restricted to one incident: its row plus its timeline rows in
insertion order. -/
structure St where
  incident : Incident
  timeline : List TimelineEvent
deriving DecidableEq, Repr

/-- `add_timeline` (main.py): inserts one event stamped with its own fresh
`utcnow()` sample (`clk k`), consuming one clock tick. -/
def add_timeline (clk : Nat → Int) (k : Nat) (tl : List TimelineEvent)
    (incident_id event_type : String) (o n : Option String) :
    List TimelineEvent × Nat :=
  (tl ++ [{ incident_id := incident_id
            event_type := event_type
            created_at := clk k
            old_value := o
            new_value := n }], k + 1)

/-- `POST /incidents` body (pydantic `IncidentCreate`); length validation of
title/description is transport-layer and out of scope. -/
def create_incident (clk : Nat → Int) (k : Nat)
    (iid title description priority : String) :
    Except ApiError (St × Nat) :=
  match normalize_priority priority with
  | .error e => .error e
  | .ok prio =>
    let now := clk k
    let inc : Incident :=
      { id := iid
        title := pyStrip title
        description := pyStrip description
        priority := prio
        status := "open"
        created_at := now
        updated_at := now
        resolved_at := none
        resolved_by := none
        resolution_notes := none }
    let (tl, k2) := add_timeline clk (k + 1) [] iid "created" none
      (some (prio ++ " open"))
    .ok ({ incident := inc, timeline := tl }, k2)

/-- `PATCH /incidents/{id}` body (pydantic `IncidentPatch`). -/
structure IncidentPatch where
  status : String
  priority : Option String := none
  resolved_by : Option String := none
  resolution_notes : Option String := none
  note : Option String := none
deriving DecidableEq, Repr

/-- First priority-change block of `patch_incident` (main.py lines 393-403):
guarded by Python truthiness of `payload.priority`; on an actual change it
logs `priority_changed` (one clock tick), then updates the row with
`updated_at = utcnow()` (a second tick) and re-reads it. -/
def patchPrioBlock1 (clk : Nat → Int) (k : Nat) (tl : List TimelineEvent)
    (row : Incident) (prio : Option String) :
    Except ApiError (Incident × List TimelineEvent × Nat) :=
  match prio with
  | none => .ok (row, tl, k)
  | some ps =>
    if ps = "" then .ok (row, tl, k)
    else
      match normalize_priority ps with
      | .error e => .error e
      | .ok new_prio =>
        if new_prio ≠ row.priority then
          let (tl1, k1) := add_timeline clk k tl row.id "priority_changed"
            (some row.priority) (some new_prio)
          let row1 : Incident :=
            { row with
              priority := new_prio
              updated_at := clk k1 }
          .ok (row1, tl1, k1 + 1)
        else .ok (row, tl, k)

/-- First free-text-note block of `patch_incident` (main.py lines 404-406):
`if payload.note and payload.note.strip():` appends an event of kind
`"note"`. -/
def patchNoteBlock1 (clk : Nat → Int) (k : Nat) (tl : List TimelineEvent)
    (iid : String) (note : Option String) : List TimelineEvent × Nat :=
  match note with
  | none => (tl, k)
  | some n =>
    if n ≠ "" ∧ pyStrip n ≠ "" then
      add_timeline clk k tl iid "note" none (some (pyStrip n))
    else (tl, k)

/-- Second (duplicated) priority-change block of `patch_incident`
(main.py lines 415-420): guarded by `payload.priority is not None`; on a
perceived change it appends an event of kind `"resolution_notes"` carrying
the current resolution notes and overwrites the local `priority`. -/
def patchPrioBlock2 (clk : Nat → Int) (k : Nat) (tl : List TimelineEvent)
    (iid : String) (prio : Option String) (priority : String)
    (resolution_notes : Option String) :
    Except ApiError (String × List TimelineEvent × Nat) :=
  match prio with
  | none => .ok (priority, tl, k)
  | some ps =>
    match normalize_priority ps with
    | .error e => .error e
    | .ok new_prio =>
      if new_prio ≠ priority then
        let (tl1, k1) := add_timeline clk k tl iid "resolution_notes" none
          resolution_notes
        .ok (new_prio, tl1, k1)
      else .ok (priority, tl, k)

/-- Second free-text-note block of `patch_incident` (main.py lines 422-424):
`if payload.note is not None and payload.note.strip():` appends an event of
kind `"note_added"`. -/
def patchNoteBlock2 (clk : Nat → Int) (k : Nat) (tl : List TimelineEvent)
    (iid : String) (note : Option String) : List TimelineEvent × Nat :=
  match note with
  | none => (tl, k)
  | some n =>
    if pyStrip n ≠ "" then
      add_timeline clk k tl iid "note_added" none (some (pyStrip n))
    else (tl, k)

/-- Resolution block of `patch_incident` (main.py lines 427-441), already
guarded by `new_status == "resolved" and old_status != "resolved"`: checks the
preconditions, normalizes the role, strips the notes, stamps `resolved_at`
with the previously sampled `now`, and appends three events. -/
def patchResolveBlock (clk : Nat → Int) (k : Nat) (tl : List TimelineEvent)
    (row : Incident) (now : Int) (rb rn : Option String) :
    Except ApiError ((Option Int × Option String × Option String) ×
      List TimelineEvent × Nat) :=
  if truthyOpt rb = false then .error .resolvedByRequired
  else
    match rb with
    | none => .error .resolvedByRequired
    | some rbs =>
      match rn with
      | none => .error .resolutionNotesRequired
      | some rns =>
        if rns = "" ∨ pyStrip rns = "" then .error .resolutionNotesRequired
        else
          match normalize_role rbs with
          | .error e => .error e
          | .ok role =>
            let notes1 := pyStrip rns
            let ra : Option Int := some now
            let (tl1, k1) := add_timeline clk k tl row.id "resolved_by"
              row.resolved_by (some role)
            let (tl2, k2) := add_timeline clk k1 tl1 row.id "resolution_notes"
              none (some "added")
            let (tl3, k3) := add_timeline clk k2 tl2 row.id "resolved_at"
              (row.resolved_at.map toString) (some (toString now))
            .ok ((ra, some role, some notes1), tl3, k3)

/-- `patch_incident` (main.py lines 375-459), faithful to the statement order
of the source including both duplicated priority/note blocks.  The incoming
`St` plays the role of the row found by the id lookup (the not-found branch
needs no modelling here because every claim concerns an existing incident). -/
def patch_incident (clk : Nat → Int) (k0 : Nat) (st : St)
    (payload : IncidentPatch) : Except ApiError (St × Nat) :=
  match normalize_status payload.status with
  | .error e => .error e
  | .ok new_status =>
    let row0 := st.incident
    let old_status := row0.status
    if new_status ≠ old_status ∧ new_status ∉ STATUS_TRANSITIONS old_status then
      .error (.invalidTransition old_status new_status)
    else
      match patchPrioBlock1 clk k0 st.timeline row0 payload.priority with
      | .error e => .error e
      | .ok (row1, tl1, k1) =>
        let (tl2, k2) := patchNoteBlock1 clk k1 tl1 row1.id payload.note
        let now := clk k2
        let k3 := k2 + 1
        match patchPrioBlock2 clk k3 tl2 row1.id payload.priority row1.priority
            row1.resolution_notes with
        | .error e => .error e
        | .ok (priority1, tl3, k4) =>
          let (tl4, k5) := patchNoteBlock2 clk k4 tl3 row1.id payload.note
          let resolveRes :=
            if new_status = "resolved" ∧ old_status ≠ "resolved" then
              patchResolveBlock clk k5 tl4 row1 now payload.resolved_by
                payload.resolution_notes
            else
              .ok ((row1.resolved_at, row1.resolved_by, row1.resolution_notes),
                tl4, k5)
          match resolveRes with
          | .error e => .error e
          | .ok ((ra, rb2, rn2), tl5, k6) =>
            let (tl6, k7) :=
              if new_status ≠ old_status then
                add_timeline clk k6 tl5 row1.id "status_changed"
                  (some old_status) (some new_status)
              else (tl5, k6)
            let inc2 : Incident :=
              { row1 with
                priority := priority1
                status := new_status
                updated_at := now
                resolved_at := ra
                resolved_by := rb2
                resolution_notes := rn2 }
            .ok ({ incident := inc2, timeline := tl6 }, k7)

/-- `patch_incident` with SQLite rollback made explicit: an error closes the
connection without committing, so the caller observes the original state and
the error; a success commits the new state. -/
def apply_patch (clk : Nat → Int) (k : Nat) (st : St)
    (payload : IncidentPatch) : St × Nat × Option ApiError :=
  match patch_incident clk k st payload with
  | .ok (st2, k2) => (st2, k2, none)
  | .error e => (st, k, some e)

/-- Sequential application of a list of patches to one incident. -/
def apply_patches (clk : Nat → Int) (k : Nat) (st : St) :
    List IncidentPatch → St
  | [] => st
  | p :: ps =>
    let r := apply_patch clk k st p
    apply_patches clk r.2.1 r.1 ps

/-- One entry of the breach report (main.py `BreachView`). -/
structure BreachView where
  id : String
  title : String
  priority : String
  status : String
  created_at : Int
  age_minutes : Int
  sla_minutes : Int
  overdue_minutes : Int
deriving DecidableEq, Repr

/-- Stable insertion of one element into a list already sorted by
`overdue_minutes` descending; equal keys keep their original order, matching
the stability of Python `list.sort`. -/
def insertByOverdueDesc (b : BreachView) : List BreachView → List BreachView
  | [] => [b]
  | c :: cs =>
    if b.overdue_minutes > c.overdue_minutes then b :: c :: cs
    else c :: insertByOverdueDesc b cs

/-- `out.sort(key=lambda x: x.overdue_minutes, reverse=True)`. -/
def sortByOverdueDesc (l : List BreachView) : List BreachView :=
  l.foldl (fun acc b => insertByOverdueDesc b acc) []

/-- `compute_breaches` (main.py lines 506-527).  `created_at` is an instant in
this embedding, so the `iso_to_dt(...) or now` fallback for unparseable
strings collapses to reading the field. -/
def compute_breaches (now : Int) (incidents : List Incident) :
    List BreachView :=
  let out := incidents.filterMap (fun inc =>
    let age := minutes_between inc.created_at now
    let sla := SLA_MINUTES inc.priority
    let overdue := max 0 (age - sla)
    if overdue > 0 ∧ inc.status ≠ "resolved" then
      some { id := inc.id
             title := inc.title
             priority := inc.priority
             status := inc.status
             created_at := inc.created_at
             age_minutes := age
             sla_minutes := sla
             overdue_minutes := overdue }
    else none)
  sortByOverdueDesc out

/-- The five aging buckets (main.py `aging_buckets` result dict). -/
structure AgingBuckets where
  lt_15m : Nat
  m15_60 : Nat
  h1_4 : Nat
  h4_24 : Nat
  gte_24h : Nat
deriving DecidableEq, Repr

/-- One loop iteration of `aging_buckets`. -/
def bucketAdd (now : Int) (b : AgingBuckets) (inc : Incident) : AgingBuckets :=
  if inc.status = "resolved" then b
  else
    let age := minutes_between inc.created_at now
    if age < 15 then { b with lt_15m := b.lt_15m + 1 }
    else if age < 60 then { b with m15_60 := b.m15_60 + 1 }
    else if age < 240 then { b with h1_4 := b.h1_4 + 1 }
    else if age < 1440 then { b with h4_24 := b.h4_24 + 1 }
    else { b with gte_24h := b.gte_24h + 1 }

/-- `aging_buckets` (main.py lines 530-547). -/
def aging_buckets (now : Int) (incidents : List Incident) : AgingBuckets :=
  incidents.foldl (bucketAdd now) ⟨0, 0, 0, 0, 0⟩

/-- Total count across the five buckets. -/
def bucketTotal (b : AgingBuckets) : Nat :=
  b.lt_15m + b.m15_60 + b.h1_4 + b.h4_24 + b.gte_24h

/-- The status/reasons core of `ops_health` (main.py lines 550-598): the SQL
query restricts to `status != 'resolved'`, the three reason triggers fire
independently, and the tri-level status is derived from them.  Reasons are
represented by their `code` strings, which is all the status derivation
reads (`any(r["code"] == "sla_breach_p0" ...)`). -/
def ops_health_status_reasons (now : Int) (rows : List Incident) :
    String × List String :=
  let incidents := rows.filter (fun i => decide (i.status ≠ "resolved"))
  let breaches := compute_breaches now incidents
  let breached_total := breaches.length
  let buckets := aging_buckets now incidents
  let p0_breaches := breaches.filter (fun b => decide (b.priority = "P0"))
  let reasons :=
    (if p0_breaches ≠ [] then ["sla_breach_p0"] else [])
    ++ (if breached_total ≥ BREACH_THRESHOLD_TOTAL then ["sla_breaches_total"]
        else [])
    ++ (if buckets.gte_24h ≥ AGING_THRESHOLD_24H then ["aging_24h"] else [])
  let status :=
    if "sla_breach_p0" ∈ reasons then "red"
    else if reasons ≠ [] then "amber"
    else "green"
  (status, reasons)

/-- `listPrefixOf p s` decides whether `p` is a prefix of `s`. -/
def listPrefixOf : List Char → List Char → Bool
  | [], _ => true
  | _ :: _, [] => false
  | a :: as, b :: bs => decide (a = b) && listPrefixOf as bs

/-- `listInfixOf p s` decides Python `p in s` (contiguous substring). -/
def listInfixOf (p : List Char) : List Char → Bool
  | [] => p.isEmpty
  | c :: rest => listPrefixOf p (c :: rest) || listInfixOf p rest

/-- Python `str.lower()` on the ASCII texts used by the classifier, exposed
as a character list. -/
def pyLowerData (s : String) : List Char := s.data.map Char.toLower

/-- `sum(1 for h in hits if h in text)` (main.py `triage_rules.count`). -/
def hitCount (hits : List String) (text : List Char) : Nat :=
  (hits.filter (fun h => listInfixOf h.data text)).length

def p0_hits : List String :=
  ["checkout", "payment", "outage", "500", "down", "failed", "critical",
   "sev0", "p0"]

def p1_hits : List String :=
  ["activation", "delay", "degraded", "latency", "timeout", "sev1", "p1"]

def p2_hits : List String :=
  ["slow", "backlog", "retry", "webhook", "billing", "p2"]

/-- `triage_rules` (main.py lines 828-886): fixed keyword heuristic over the
case-folded concatenation of title and description. -/
def triage_rules (title desc : String) : String × List String × String :=
  let text := pyLowerData (title ++ "\n" ++ desc)
  let s0 := hitCount p0_hits text
  let s1 := hitCount p1_hits text
  let s2 := hitCount p2_hits text
  if s0 ≥ 2 ∨ listInfixOf "outage".data text = true ∨
      (listInfixOf "payment".data text = true ∧
       listInfixOf "failed".data text = true) then
    ("P0",
     ["Assign an owner (On-call)",
      "Confirm blast radius + impacted customers",
      "Mitigate (rollback/feature flag/traffic shift)",
      "Post status update + next update time",
      "Resolve with notes + follow-ups"],
     "Signals indicate critical customer impact / outage risk.")
  else if s1 ≥ 2 ∨ (listInfixOf "activation".data text = true ∧
      listInfixOf "delay".data text = true) then
    ("P1",
     ["Confirm symptoms + metrics (latency/errors)",
      "Engage owning team; check recent changes",
      "Apply mitigation and monitor recovery",
      "Communicate externally if needed",
      "Create follow-up if recurring"],
     "Signals indicate degraded service impacting user experience and SLAs.")
  else if s2 ≥ 1 then
    ("P2",
     ["Validate incident is actionable (not duplicate/noise)",
      "Assign ownership + next action",
      "Check breach risk and adjust priority if needed",
      "Convert repeats into Problem ticket"],
     "Signals suggest operational risk/backlog pressure rather than immediate outage.")
  else
    ("P3",
     ["Capture context + repro steps",
      "Assign to backlog with acceptance criteria",
      "Review in weekly ops cadence"],
     "Signals suggest low urgency; track for hygiene and prevent future issues.")

/-- Number of timeline events of a given kind. -/
def countKind (kind : String) (l : List TimelineEvent) : Nat :=
  l.countP (fun e => decide (e.event_type = kind))

/-! ### Helper lemmas about the patch blocks -/

theorem countKind_append (kind : String) (l m : List TimelineEvent) :
    countKind kind (l ++ m) = countKind kind l + countKind kind m :=
  List.countP_append _ _ _

theorem normalize_priority_empty :
    normalize_priority "" = .error (.invalidPriority "") := by
  simp [normalize_priority, pyStrip, pyUpper, PRIORITIES]

theorem pyStrip_empty : pyStrip "" = "" := by
  simp [pyStrip]

theorem normalize_priority_ok_ne_empty {ps v : String}
    (h : normalize_priority ps = .ok v) : ps ≠ "" := by
  intro hps
  subst hps
  rw [normalize_priority_empty] at h
  cases h

theorem pyStrip_ne_empty_of {n : String} (h : pyStrip n ≠ "") : n ≠ "" := by
  intro hn
  subst hn
  exact h pyStrip_empty

/-- Success shape of the first priority block: either a no-op, or one
`priority_changed` event plus an in-place priority/updated_at change. -/
theorem patchPrioBlock1_ok_shape {clk : Nat → Int} {k : Nat}
    {tl : List TimelineEvent} {row : Incident} {pr : Option String}
    {row1 : Incident} {tl1 : List TimelineEvent} {k1 : Nat}
    (h : patchPrioBlock1 clk k tl row pr = .ok (row1, tl1, k1)) :
    (row1 = row ∧ tl1 = tl ∧ k1 = k) ∨
    (∃ ps v, pr = some ps ∧ normalize_priority ps = .ok v ∧
      v ≠ row.priority ∧
      row1 = { row with priority := v, updated_at := clk (k + 1) } ∧
      tl1 = tl ++ [{ incident_id := row.id
                     event_type := "priority_changed"
                     created_at := clk k
                     old_value := some row.priority
                     new_value := some v }] ∧
      k1 = k + 2) := by
  unfold patchPrioBlock1 at h
  split at h
  · simp only [Except.ok.injEq, Prod.mk.injEq] at h
    exact Or.inl ⟨h.1.symm, h.2.1.symm, h.2.2.symm⟩
  · next ps =>
    split at h
    · simp only [Except.ok.injEq, Prod.mk.injEq] at h
      exact Or.inl ⟨h.1.symm, h.2.1.symm, h.2.2.symm⟩
    · split at h
      · cases h
      · next v hv =>
        split at h
        · next hne =>
          simp only [add_timeline, Except.ok.injEq, Prod.mk.injEq] at h
          exact Or.inr ⟨ps, v, rfl, hv, hne, h.1.symm, h.2.1.symm, h.2.2.symm⟩
        · simp only [Except.ok.injEq, Prod.mk.injEq] at h
          exact Or.inl ⟨h.1.symm, h.2.1.symm, h.2.2.symm⟩

/-- After a successful first priority block, the row's priority is the
normalized requested priority whenever one was supplied. -/
theorem patchPrioBlock1_ok_prio {clk : Nat → Int} {k : Nat}
    {tl : List TimelineEvent} {row : Incident} {ps v : String}
    {row1 : Incident} {tl1 : List TimelineEvent} {k1 : Nat}
    (h : patchPrioBlock1 clk k tl row (some ps) = .ok (row1, tl1, k1))
    (hv : normalize_priority ps = .ok v) : row1.priority = v := by
  have hps : ps ≠ "" := normalize_priority_ok_ne_empty hv
  simp only [patchPrioBlock1] at h
  rw [if_neg hps] at h
  simp only [hv] at h
  split at h
  · simp only [add_timeline, Except.ok.injEq, Prod.mk.injEq] at h
    rw [← h.1]
  · next hne =>
    simp only [Except.ok.injEq, Prod.mk.injEq] at h
    rw [← h.1]
    exact (not_not.mp hne).symm

/-- The second (duplicated) priority block, called as `patch_incident` calls
it — with the in-memory priority taken from the row that the first block has
already updated and re-read — either fails on an invalid value or does
nothing at all: it never appends its event and never changes the priority. -/
theorem patchPrioBlock2_noop_or_error {clk : Nat → Int} {k : Nat}
    {tl : List TimelineEvent} {row : Incident} {pr : Option String}
    {row1 : Incident} {tl1 : List TimelineEvent} {k1 : Nat}
    (h : patchPrioBlock1 clk k tl row pr = .ok (row1, tl1, k1))
    (clk2 : Nat → Int) (k2 : Nat) (tl2 : List TimelineEvent) (iid : String)
    (rn : Option String) :
    patchPrioBlock2 clk2 k2 tl2 iid pr row1.priority rn =
      .ok (row1.priority, tl2, k2) ∨
    ∃ e, patchPrioBlock2 clk2 k2 tl2 iid pr row1.priority rn = .error e := by
  cases pr with
  | none => exact Or.inl rfl
  | some ps =>
    cases hv : normalize_priority ps with
    | error e =>
      exact Or.inr ⟨e, by simp only [patchPrioBlock2, hv]⟩
    | ok v =>
      have hp1 : row1.priority = v := patchPrioBlock1_ok_prio h hv
      exact Or.inl (by simp [patchPrioBlock2, hv, hp1])

/-- Shape of the first note block: it appends nothing, or exactly one
`"note"` event, and advances the counter by the number of events. -/
theorem patchNoteBlock1_shape (clk : Nat → Int) (k : Nat)
    (tl : List TimelineEvent) (iid : String) (note : Option String) :
    (patchNoteBlock1 clk k tl iid note = (tl, k)) ∨
    (∃ n, note = some n ∧ pyStrip n ≠ "" ∧
      patchNoteBlock1 clk k tl iid note =
        (tl ++ [{ incident_id := iid
                  event_type := "note"
                  created_at := clk k
                  old_value := none
                  new_value := some (pyStrip n) }], k + 1)) := by
  cases note with
  | none => exact Or.inl rfl
  | some n =>
    by_cases hn : n ≠ "" ∧ pyStrip n ≠ ""
    · exact Or.inr ⟨n, rfl, hn.2, by simp [patchNoteBlock1, hn, add_timeline]⟩
    · exact Or.inl (by simp only [patchNoteBlock1, if_neg hn])

/-- Shape of the second note block: it appends nothing, or exactly one
`"note_added"` event. -/
theorem patchNoteBlock2_shape (clk : Nat → Int) (k : Nat)
    (tl : List TimelineEvent) (iid : String) (note : Option String) :
    (patchNoteBlock2 clk k tl iid note = (tl, k)) ∨
    (∃ n, note = some n ∧ pyStrip n ≠ "" ∧
      patchNoteBlock2 clk k tl iid note =
        (tl ++ [{ incident_id := iid
                  event_type := "note_added"
                  created_at := clk k
                  old_value := none
                  new_value := some (pyStrip n) }], k + 1)) := by
  cases note with
  | none => exact Or.inl rfl
  | some n =>
    by_cases hn : pyStrip n ≠ ""
    · exact Or.inr ⟨n, rfl, hn, by simp [patchNoteBlock2, hn, add_timeline]⟩
    · exact Or.inl (by simp only [patchNoteBlock2, if_neg hn])

/-- Success shape of the resolution block: the three resolution fields are
set (role non-empty, notes non-empty, `resolved_at := now`) and exactly the
three fixed events are appended. -/
theorem patchResolveBlock_ok {clk : Nat → Int} {k : Nat}
    {tl : List TimelineEvent} {row : Incident} {now : Int}
    {rb rn : Option String} {ra : Option Int} {rb2 rn2 : Option String}
    {tl1 : List TimelineEvent} {k1 : Nat}
    (h : patchResolveBlock clk k tl row now rb rn =
      .ok ((ra, rb2, rn2), tl1, k1)) :
    ra = some now ∧ (∃ role, rb2 = some role) ∧
    (∃ s, rn2 = some s ∧ s ≠ "") ∧
    (∃ e1 e2 e3, tl1 = tl ++ [e1] ++ [e2] ++ [e3] ∧
      e1.event_type = "resolved_by" ∧ e2.event_type = "resolution_notes" ∧
      e3.event_type = "resolved_at") ∧
    k1 = k + 3 := by
  unfold patchResolveBlock at h
  split at h
  · cases h
  · split at h
    · cases h
    · next rbs =>
      split at h
      · cases h
      · next rns =>
        split at h
        · cases h
        · next hblank =>
          split at h
          · cases h
          · next role hrole =>
            simp only [add_timeline, Except.ok.injEq, Prod.mk.injEq] at h
            obtain ⟨⟨hra, hrb2, hrn2⟩, htl, hk⟩ := h
            exact ⟨hra.symm, ⟨role, hrb2.symm⟩,
              ⟨pyStrip rns, hrn2.symm, fun hc => hblank (Or.inr hc)⟩,
              ⟨_, _, _, htl.symm, rfl, rfl, rfl⟩, hk.symm⟩

/-- Error shape of the resolution block: the only errors it raises besides an
invalid role are the two precondition failures, and those fire exactly when
the role is missing/falsy or the notes are missing/blank. -/
theorem patchResolveBlock_precondition {clk : Nat → Int} {k : Nat}
    {tl : List TimelineEvent} {row : Incident} {now : Int}
    {rb rn : Option String}
    (hpre : truthyOpt rb = false ∨ rn = none ∨
      ∃ s, rn = some s ∧ pyStrip s = "") :
    patchResolveBlock clk k tl row now rb rn = .error .resolvedByRequired ∨
    patchResolveBlock clk k tl row now rb rn =
      .error .resolutionNotesRequired := by
  by_cases htr : truthyOpt rb = false
  · exact Or.inl (by unfold patchResolveBlock; rw [if_pos htr])
  · have hrb : ∃ rbs, rb = some rbs ∧ rbs ≠ "" := by
      cases rb with
      | none => exact absurd rfl htr
      | some s =>
        refine ⟨s, rfl, ?_⟩
        intro hc
        subst hc
        exact htr rfl
    obtain ⟨rbs, hrbs, hrbsne⟩ := hrb
    rcases hpre with h1 | h2 | ⟨s, hs, hps⟩
    · exact absurd h1 htr
    · subst hrbs h2
      refine Or.inr ?_
      unfold patchResolveBlock
      rw [if_neg htr]
    · subst hrbs hs
      refine Or.inr ?_
      unfold patchResolveBlock
      rw [if_neg htr]
      simp [hps]

theorem countKind_single (kind : String) (e : TimelineEvent) :
    countKind kind [e] = if e.event_type = kind then 1 else 0 := by
  simp [countKind, List.countP_cons]

/-- Field preservation and timeline growth of the first priority block. -/
theorem patchPrioBlock1_ok_fields {clk : Nat → Int} {k : Nat}
    {tl : List TimelineEvent} {row : Incident} {pr : Option String}
    {row1 : Incident} {tl1 : List TimelineEvent} {k1 : Nat}
    (h : patchPrioBlock1 clk k tl row pr = .ok (row1, tl1, k1)) :
    row1.id = row.id ∧ row1.status = row.status ∧
    row1.created_at = row.created_at ∧ row1.resolved_at = row.resolved_at ∧
    row1.resolved_by = row.resolved_by ∧
    row1.resolution_notes = row.resolution_notes ∧
    ∃ a, tl1 = tl ++ a ∧ countKind "priority_changed" a ≤ 1 ∧
      countKind "resolution_notes" a = 0 ∧ countKind "note_added" a = 0 ∧
      countKind "status_changed" a = 0 ∧ countKind "note" a = 0 := by
  rcases patchPrioBlock1_ok_shape h with
    ⟨hrow, htl, -⟩ | ⟨ps, v, -, -, -, hrow, htl, -⟩ <;> subst hrow htl
  · exact ⟨rfl, rfl, rfl, rfl, rfl, rfl, [], by simp, by simp [countKind],
      by simp [countKind], by simp [countKind], by simp [countKind],
      by simp [countKind]⟩
  · refine ⟨rfl, rfl, rfl, rfl, rfl, rfl, _, rfl, ?_, ?_, ?_, ?_, ?_⟩ <;>
      simp [countKind_single]

/-- Timeline growth of the first note block. -/
theorem patchNoteBlock1_tl (clk : Nat → Int) (k : Nat)
    (tl : List TimelineEvent) (iid : String) (note : Option String) :
    ∃ a k9, patchNoteBlock1 clk k tl iid note = (tl ++ a, k9) ∧
      countKind "priority_changed" a = 0 ∧
      countKind "resolution_notes" a = 0 ∧ countKind "note_added" a = 0 ∧
      countKind "status_changed" a = 0 ∧ countKind "note" a ≤ 1 := by
  rcases patchNoteBlock1_shape clk k tl iid note with hn | ⟨n, -, -, hn⟩ <;>
    rw [hn]
  · exact ⟨[], k, by simp, by simp [countKind], by simp [countKind],
      by simp [countKind], by simp [countKind], by simp [countKind]⟩
  · exact ⟨_, k + 1, rfl, by simp [countKind_single], by simp [countKind_single],
      by simp [countKind_single], by simp [countKind_single],
      by simp [countKind_single]⟩

/-- Timeline growth of the second note block. -/
theorem patchNoteBlock2_tl (clk : Nat → Int) (k : Nat)
    (tl : List TimelineEvent) (iid : String) (note : Option String) :
    ∃ a k9, patchNoteBlock2 clk k tl iid note = (tl ++ a, k9) ∧
      countKind "priority_changed" a = 0 ∧
      countKind "resolution_notes" a = 0 ∧ countKind "note_added" a ≤ 1 ∧
      countKind "status_changed" a = 0 ∧ countKind "note" a = 0 := by
  rcases patchNoteBlock2_shape clk k tl iid note with hn | ⟨n, -, -, hn⟩ <;>
    rw [hn]
  · exact ⟨[], k, by simp, by simp [countKind], by simp [countKind],
      by simp [countKind], by simp [countKind], by simp [countKind]⟩
  · exact ⟨_, k + 1, rfl, by simp [countKind_single], by simp [countKind_single],
      by simp [countKind_single], by simp [countKind_single],
      by simp [countKind_single]⟩

/-- Timeline growth of the resolution block on success. -/
theorem patchResolveBlock_ok_tl {clk : Nat → Int} {k : Nat}
    {tl : List TimelineEvent} {row : Incident} {now : Int}
    {rb rn : Option String} {ra : Option Int} {rb2 rn2 : Option String}
    {tl1 : List TimelineEvent} {k1 : Nat}
    (h : patchResolveBlock clk k tl row now rb rn =
      .ok ((ra, rb2, rn2), tl1, k1)) :
    ∃ a, tl1 = tl ++ a ∧ countKind "priority_changed" a = 0 ∧
      countKind "resolution_notes" a = 1 ∧ countKind "note_added" a = 0 ∧
      countKind "status_changed" a = 0 ∧ countKind "note" a = 0 := by
  obtain ⟨-, -, -, ⟨e1, e2, e3, htl, he1, he2, he3⟩, -⟩ :=
    patchResolveBlock_ok h
  refine ⟨[e1] ++ [e2] ++ [e3], by simp [htl], ?_, ?_, ?_, ?_, ?_⟩ <;>
    simp [countKind, List.countP_cons, he1, he2, he3]

/-- Master characterization of a successful `patch_incident`: the status
becomes the normalized requested status, the transition was legal, immutable
fields survive, the resolution fields are set exactly on a resolving patch
(with `resolved_at` equal to the committed `updated_at`, both stamped from
the single `now` sample) and untouched otherwise, and the timeline grows by
events with at most one `priority_changed` and with exactly one
`resolution_notes` event when resolving (zero otherwise). -/
theorem patch_incident_ok_spec {clk : Nat → Int} {k : Nat} {st : St}
    {payload : IncidentPatch} {st2 : St} {k2 : Nat}
    (h : patch_incident clk k st payload = .ok (st2, k2)) :
    ∃ ns, normalize_status payload.status = .ok ns ∧
      st2.incident.status = ns ∧
      (ns = st.incident.status ∨ ns ∈ STATUS_TRANSITIONS st.incident.status) ∧
      st2.incident.id = st.incident.id ∧
      st2.incident.created_at = st.incident.created_at ∧
      ((ns = "resolved" ∧ st.incident.status ≠ "resolved") →
        (st2.incident.resolved_at = some st2.incident.updated_at ∧
         (∃ r, st2.incident.resolved_by = some r) ∧
         (∃ s, st2.incident.resolution_notes = some s ∧ s ≠ ""))) ∧
      (¬(ns = "resolved" ∧ st.incident.status ≠ "resolved") →
        (st2.incident.resolved_at = st.incident.resolved_at ∧
         st2.incident.resolved_by = st.incident.resolved_by ∧
         st2.incident.resolution_notes = st.incident.resolution_notes)) ∧
      (∃ app, st2.timeline = st.timeline ++ app ∧
        countKind "priority_changed" app ≤ 1 ∧
        countKind "resolution_notes" app =
          (if ns = "resolved" ∧ st.incident.status ≠ "resolved" then 1
           else 0)) := by
  unfold patch_incident at h
  simp only [] at h
  split at h
  · cases h
  · next ns hns =>
    split at h
    · cases h
    · next htr =>
      have htr2 : ns = st.incident.status ∨
          ns ∈ STATUS_TRANSITIONS st.incident.status := by
        rcases not_and_or.mp htr with h1 | h1
        · exact Or.inl (not_not.mp h1)
        · exact Or.inr (not_not.mp h1)
      split at h
      · cases h
      · next row1 tl1 k1 hb1 =>
        obtain ⟨hid1, hst1, hca1, hra1, hrb1, hrn1, a1, htla1, hc1a, hc1b,
          hc1c, hc1d, hc1e⟩ := patchPrioBlock1_ok_fields hb1
        obtain ⟨a2, k9a, hnb1, hc2a, hc2b, hc2c, hc2d, hc2e⟩ :=
          patchNoteBlock1_tl clk k1 tl1 row1.id payload.note
        simp only [hnb1] at h
        rcases patchPrioBlock2_noop_or_error hb1 clk (k9a + 1) (tl1 ++ a2)
            row1.id row1.resolution_notes with h2 | ⟨e2, h2⟩
        · simp only [h2] at h
          obtain ⟨a4, k9b, hnb2, hc4a, hc4b, hc4c, hc4d, hc4e⟩ :=
            patchNoteBlock2_tl clk (k9a + 1) (tl1 ++ a2) row1.id payload.note
          simp only [hnb2] at h
          by_cases hres : ns = "resolved" ∧ st.incident.status ≠ "resolved"
          · rw [if_pos hres] at h
            split at h
            · cases h
            · next ra rb2 rn2 tl5 k6 hrb =>
              obtain ⟨hraeq, ⟨rr, hrr⟩, ⟨ss, hss, hssne⟩, -, -⟩ :=
                patchResolveBlock_ok hrb
              obtain ⟨a5, htl5, hc5a, hc5b, hc5c, hc5d, hc5e⟩ :=
                patchResolveBlock_ok_tl hrb
              have hsc : ns ≠ st.incident.status := by
                intro hc
                exact hres.2 (hc ▸ hres.1)
              rw [if_pos hsc] at h
              simp only [add_timeline, Except.ok.injEq, Prod.mk.injEq] at h
              obtain ⟨hst2, -⟩ := h
              subst hst2
              refine ⟨ns, hns, rfl, htr2, hid1, hca1, fun _ => ?_,
                fun hc => absurd hres hc, ?_⟩
              · exact ⟨hraeq, ⟨rr, hrr⟩, ⟨ss, hss, hssne⟩⟩
              · refine ⟨a1 ++ (a2 ++ (a4 ++ (a5 ++
                  [{ incident_id := row1.id
                     event_type := "status_changed"
                     created_at := clk k6
                     old_value := some st.incident.status
                     new_value := some ns }]))), ?_, ?_, ?_⟩
                · rw [htl5, htla1]
                  simp
                · simp [countKind_append, countKind_single, hc2a, hc4a,
                    hc5a, hc1a]
                · rw [if_pos hres]
                  simp [countKind_append, countKind_single, hc1b, hc2b,
                    hc4b, hc5b]
          · rw [if_neg hres] at h
            simp only [] at h
            by_cases hsc : ns ≠ st.incident.status
            · rw [if_pos hsc] at h
              simp only [add_timeline, Except.ok.injEq, Prod.mk.injEq] at h
              obtain ⟨hst2, -⟩ := h
              subst hst2
              refine ⟨ns, hns, rfl, htr2, hid1, hca1,
                fun hc => absurd hc hres, fun _ => ⟨hra1, hrb1, hrn1⟩, ?_⟩
              refine ⟨a1 ++ (a2 ++ (a4 ++
                [{ incident_id := row1.id
                   event_type := "status_changed"
                   created_at := clk k9b
                   old_value := some st.incident.status
                   new_value := some ns }])), ?_, ?_, ?_⟩
              · rw [htla1]
                simp
              · simp [countKind_append, countKind_single, hc2a, hc4a, hc1a]
              · rw [if_neg hres]
                simp [countKind_append, countKind_single, hc1b, hc2b, hc4b]
            · rw [if_neg hsc] at h
              simp only [Except.ok.injEq, Prod.mk.injEq] at h
              obtain ⟨hst2, -⟩ := h
              subst hst2
              refine ⟨ns, hns, rfl, htr2, hid1, hca1,
                fun hc => absurd hc hres, fun _ => ⟨hra1, hrb1, hrn1⟩, ?_⟩
              refine ⟨a1 ++ (a2 ++ a4), ?_, ?_, ?_⟩
              · rw [htla1]
                simp
              · simp [countKind_append, hc2a, hc4a, hc1a]
              · rw [if_neg hres]
                simp [countKind_append, hc1b, hc2b, hc4b]
        · simp only [h2] at h
          cases h

theorem normalize_status_error_shape {s : String} {e : ApiError}
    (h : normalize_status s = .error e) : ∃ q, e = .invalidStatus q := by
  unfold normalize_status at h
  simp only [] at h
  split at h
  · cases h
  · exact ⟨_, (Except.error.injEq .. ▸ h).symm⟩

theorem normalize_priority_error_shape {p : String} {e : ApiError}
    (h : normalize_priority p = .error e) : ∃ q, e = .invalidPriority q := by
  unfold normalize_priority at h
  simp only [] at h
  split at h
  · cases h
  · exact ⟨_, (Except.error.injEq .. ▸ h).symm⟩

theorem normalize_role_error_shape {r : String} {e : ApiError}
    (h : normalize_role r = .error e) : ∃ q, e = .invalidRole q := by
  unfold normalize_role at h
  simp only [] at h
  split at h
  · cases h
  · exact ⟨_, (Except.error.injEq .. ▸ h).symm⟩

theorem patchPrioBlock1_error_shape {clk : Nat → Int} {k : Nat}
    {tl : List TimelineEvent} {row : Incident} {pr : Option String}
    {e : ApiError} (h : patchPrioBlock1 clk k tl row pr = .error e) :
    ∃ q, e = .invalidPriority q := by
  unfold patchPrioBlock1 at h
  split at h
  · cases h
  · split at h
    · cases h
    · split at h
      · next e2 he2 =>
        exact (Except.error.injEq .. ▸ h) ▸ normalize_priority_error_shape he2
      · split at h <;> cases h

theorem patchPrioBlock2_error_shape {clk : Nat → Int} {k : Nat}
    {tl : List TimelineEvent} {iid : String} {pr : Option String}
    {priority : String} {rn : Option String} {e : ApiError}
    (h : patchPrioBlock2 clk k tl iid pr priority rn = .error e) :
    ∃ q, e = .invalidPriority q := by
  unfold patchPrioBlock2 at h
  split at h
  · cases h
  · split at h
    · next e2 he2 =>
      exact (Except.error.injEq .. ▸ h) ▸ normalize_priority_error_shape he2
    · split at h <;> cases h

theorem patchResolveBlock_error_shape {clk : Nat → Int} {k : Nat}
    {tl : List TimelineEvent} {row : Incident} {now : Int}
    {rb rn : Option String} {e : ApiError}
    (h : patchResolveBlock clk k tl row now rb rn = .error e) :
    e = .resolvedByRequired ∨ e = .resolutionNotesRequired ∨
    ∃ q, e = .invalidRole q := by
  unfold patchResolveBlock at h
  split at h
  · exact Or.inl (Except.error.injEq .. ▸ h).symm
  · split at h
    · exact Or.inl (Except.error.injEq .. ▸ h).symm
    · split at h
      · exact Or.inr (Or.inl (Except.error.injEq .. ▸ h).symm)
      · split at h
        · exact Or.inr (Or.inl (Except.error.injEq .. ▸ h).symm)
        · split at h
          · next e2 he2 =>
            exact Or.inr (Or.inr
              ((Except.error.injEq .. ▸ h) ▸ normalize_role_error_shape he2))
          · cases h

/-- The only way `patch_incident` fails with an invalid-transition error is
the transition check itself: the requested status normalized to a different
status that is not a direct edge from the current one. -/
theorem patch_incident_transition_error_spec {clk : Nat → Int} {k : Nat}
    {st : St} {payload : IncidentPatch} {a b : String}
    (h : patch_incident clk k st payload = .error (.invalidTransition a b)) :
    a = st.incident.status ∧ normalize_status payload.status = .ok b ∧
    b ≠ st.incident.status ∧ b ∉ STATUS_TRANSITIONS st.incident.status := by
  unfold patch_incident at h
  simp only [] at h
  split at h
  · next e2 he2 =>
    obtain ⟨q, hq⟩ := normalize_status_error_shape he2
    rw [Except.error.injEq] at h
    rw [h] at hq
    cases hq
  · next ns hns =>
    split at h
    · next hcond =>
      rw [Except.error.injEq, ApiError.invalidTransition.injEq] at h
      exact ⟨h.1.symm, h.2 ▸ hns, h.2 ▸ hcond.1, h.2 ▸ hcond.2⟩
    · split at h
      · next e2 he2 =>
        obtain ⟨q, hq⟩ := patchPrioBlock1_error_shape he2
        rw [Except.error.injEq] at h
        rw [h] at hq
        cases hq
      · next row1 tl1 k1 hb1 =>
        obtain ⟨tl2x, k2x, hnb1⟩ :
            ∃ c d, patchNoteBlock1 clk k1 tl1 row1.id payload.note = (c, d) :=
          ⟨_, _, rfl⟩
        simp only [hnb1] at h
        split at h
        · next e2 he2 =>
          obtain ⟨q, hq⟩ := patchPrioBlock2_error_shape he2
          rw [Except.error.injEq] at h
          rw [h] at hq
          cases hq
        · next prio1 tl3x k4x hb2 =>
          obtain ⟨tl4x, k5x, hnb2⟩ :
              ∃ c d, patchNoteBlock2 clk k4x tl3x row1.id payload.note =
                (c, d) := ⟨_, _, rfl⟩
          simp only [hnb2] at h
          split at h
          · next e2 he2 =>
            have he3 : patchResolveBlock clk k5x tl4x row1 (clk k2x)
                payload.resolved_by payload.resolution_notes = .error e2 := by
              by_cases hres : ns = "resolved" ∧ st.incident.status ≠ "resolved"
              · rwa [if_pos hres] at he2
              · rw [if_neg hres] at he2
                cases he2
            rcases patchResolveBlock_error_shape he3 with hq | hq | ⟨q, hq⟩ <;>
              (rw [Except.error.injEq] at h; rw [h] at hq; cases hq)
          · next v hv =>
            split at h <;> cases h

/-- From a resolved incident, any request for a different (valid) status is
rejected by the transition check before anything else can fail. -/
theorem patch_from_resolved_diff {clk : Nat → Int} {k : Nat} {st : St}
    {payload : IncidentPatch} {ns : String}
    (hst : st.incident.status = "resolved")
    (hns : normalize_status payload.status = .ok ns)
    (hne : ns ≠ "resolved") :
    patch_incident clk k st payload = .error (.invalidTransition "resolved" ns)
    := by
  unfold patch_incident
  simp only [hns, hst]
  rw [if_pos ?_]
  constructor
  · exact hne
  · simp [STATUS_TRANSITIONS]

/-- The incident invariant of the spec: the three resolution fields are all
absent while the status is not `resolved` and all present once it is. -/
def ResolvedInv (inc : Incident) : Prop :=
  (inc.status ≠ "resolved" → inc.resolved_at = none ∧
    inc.resolved_by = none ∧ inc.resolution_notes = none) ∧
  (inc.status = "resolved" → inc.resolved_at.isSome ∧
    inc.resolved_by.isSome ∧ inc.resolution_notes.isSome)

/-- One `apply_patch` step never moves an incident out of `resolved`, and it
never touches the stored resolution fields of a resolved incident. -/
theorem apply_patch_resolved_frozen {clk : Nat → Int} {k : Nat} {st : St}
    {payload : IncidentPatch} (hst : st.incident.status = "resolved") :
    (apply_patch clk k st payload).1.incident.status = "resolved" ∧
    (apply_patch clk k st payload).1.incident.resolved_at =
      st.incident.resolved_at ∧
    (apply_patch clk k st payload).1.incident.resolved_by =
      st.incident.resolved_by ∧
    (apply_patch clk k st payload).1.incident.resolution_notes =
      st.incident.resolution_notes := by
  unfold apply_patch
  cases hpi : patch_incident clk k st payload with
  | error e => simp [hst]
  | ok r =>
    obtain ⟨st2, k2⟩ := r
    obtain ⟨ns, -, hst2, htr2, -, -, -, hkeep, -⟩ :=
      patch_incident_ok_spec hpi
    have hnsr : ns = "resolved" := by
      rcases htr2 with h1 | h1
      · rw [h1, hst]
      · rw [hst] at h1
        simp [STATUS_TRANSITIONS] at h1
    have hkeep2 := hkeep (by
      intro hc
      exact hc.2 hst)
    simp only []
    exact ⟨hst2.trans hnsr, hkeep2.1, hkeep2.2.1, hkeep2.2.2⟩

/-- The first priority block succeeds when the supplied priority is absent or
valid. -/
theorem patchPrioBlock1_ok_of_valid {clk : Nat → Int} {k : Nat}
    {tl : List TimelineEvent} {row : Incident} {pr : Option String}
    (hp : pr = none ∨ ∃ ps v, pr = some ps ∧ normalize_priority ps = .ok v) :
    ∃ row1 tl1 k1, patchPrioBlock1 clk k tl row pr = .ok (row1, tl1, k1) := by
  rcases hp with rfl | ⟨ps, v, rfl, hv⟩
  · exact ⟨row, tl, k, rfl⟩
  · have hps : ps ≠ "" := normalize_priority_ok_ne_empty hv
    simp only [patchPrioBlock1]
    rw [if_neg hps]
    simp only [hv]
    split
    · exact ⟨_, _, _, rfl⟩
    · exact ⟨_, _, _, rfl⟩

/-- The second priority block is an identity when the supplied priority
normalizes to the current in-memory priority. -/
theorem patchPrioBlock2_ok_of_prio_eq {clk : Nat → Int} {k : Nat}
    {tl : List TimelineEvent} {iid : String} {ps v : String}
    {rn : Option String} (hv : normalize_priority ps = .ok v) :
    patchPrioBlock2 clk k tl iid (some ps) v rn = .ok (v, tl, k) := by
  simp [patchPrioBlock2, hv]

/-- Freshly created incidents are open, unresolved, and carry the same single
`now` sample in `created_at` and `updated_at`. -/
theorem create_incident_ok_spec {clk : Nat → Int} {k : Nat}
    {iid t d p : String} {st2 : St} {k2 : Nat}
    (h : create_incident clk k iid t d p = .ok (st2, k2)) :
    st2.incident.status = "open" ∧ st2.incident.resolved_at = none ∧
    st2.incident.resolved_by = none ∧
    st2.incident.resolution_notes = none ∧
    st2.incident.created_at = clk k ∧ st2.incident.updated_at = clk k := by
  unfold create_incident at h
  split at h
  · cases h
  · simp only [add_timeline, Except.ok.injEq, Prod.mk.injEq] at h
    obtain ⟨hst2, -⟩ := h
    subst hst2
    exact ⟨rfl, rfl, rfl, rfl, rfl, rfl⟩

/-- One `apply_patch` step preserves the resolution-field invariant. -/
theorem apply_patch_preserves_inv {clk : Nat → Int} {k : Nat} {st : St}
    {payload : IncidentPatch} (hinv : ResolvedInv st.incident) :
    ResolvedInv (apply_patch clk k st payload).1.incident := by
  unfold apply_patch
  cases hpi : patch_incident clk k st payload with
  | error e => exact hinv
  | ok r =>
    obtain ⟨st2, k2q⟩ := r
    simp only []
    obtain ⟨ns, -, hst2, htr2, -, -, hset, hkeep, -⟩ :=
      patch_incident_ok_spec hpi
    by_cases hres : ns = "resolved" ∧ st.incident.status ≠ "resolved"
    · obtain ⟨h1, ⟨r2, h2⟩, ⟨s2, h3, -⟩⟩ := hset hres
      constructor
      · intro hc
        exact absurd (hst2.trans hres.1) hc
      · intro _
        rw [h1, h2, h3]
        exact ⟨rfl, rfl, rfl⟩
    · obtain ⟨h1, h2, h3⟩ := hkeep hres
      rcases not_and_or.mp hres with hns | hold
      · have hOld : st.incident.status ≠ "resolved" := by
          intro hc
          rcases htr2 with he | he
          · exact hns (he.trans hc)
          · rw [hc] at he
            simp [STATUS_TRANSITIONS] at he
        obtain ⟨f1, f2, f3⟩ := hinv.1 hOld
        constructor
        · intro _
          rw [h1, h2, h3, f1, f2, f3]
          exact ⟨rfl, rfl, rfl⟩
        · intro hc
          rw [hst2] at hc
          exact absurd hc hns
      · have hOld := not_not.mp hold
        obtain ⟨g1, g2, g3⟩ := hinv.2 hOld
        have hns2 : ns = "resolved" := by
          rcases htr2 with he | he
          · exact he.trans hOld
          · rw [hOld] at he
            simp [STATUS_TRANSITIONS] at he
        constructor
        · intro hc
          exact absurd (hst2.trans hns2) hc
        · intro _
          rw [h1, h2, h3]
          exact ⟨g1, g2, g3⟩

/-- Status `resolved` survives any sequence of patches. -/
theorem apply_patches_resolved {clk : Nat → Int} {k : Nat} {st : St}
    (ps : List IncidentPatch) (hst : st.incident.status = "resolved") :
    (apply_patches clk k st ps).incident.status = "resolved" := by
  induction ps generalizing st k with
  | nil => exact hst
  | cons p ps ih =>
    simp only [apply_patches]
    exact ih (apply_patch_resolved_frozen hst).1

/-! ### Concrete sample data used by counterexamples and witnesses -/

/-- A clock whose n-th sample is minute n, so distinct samples are visibly
distinct. -/
def clkMin : Nat → Int := fun n => (n : Int) * 60

/-- A P2 incident in state `open`, created at instant 0, with an empty
timeline. -/
def sampleOpen : St :=
  { incident :=
      { id := "i1"
        title := "Billing portal slow"
        description := "Latency over 3s"
        priority := "P2"
        status := "open"
        created_at := 0
        updated_at := 0
        resolved_at := none
        resolved_by := none
        resolution_notes := none }
    timeline := [] }

/-- The same incident already investigating. -/
def sampleInvestigating : St :=
  { sampleOpen with
    incident := { sampleOpen.incident with status := "investigating" } }

/-- A resolved incident with all three resolution fields present. -/
def sampleResolved : St :=
  { sampleOpen with
    incident :=
      { sampleOpen.incident with
        status := "resolved"
        resolved_at := some 600
        resolved_by := some "On-call"
        resolution_notes := some "fixed" } }

/-! ### Claim theorems -/

/--
**C3**: once an incident is resolved its status never changes again: a patch
requesting a different (valid) status fails with the transition error
`resolved → ns` and leaves the state untouched (`resolved` has no outgoing
edges); a patch requesting `resolved` again is never rejected by the
transition check; and over any sequence of `apply_patch` calls the status
stays `resolved`.
-/
theorem claim_C3_resolved_is_terminal (clk : Nat → Int) (k : Nat) (st : St)
    (payload : IncidentPatch) (ps : List IncidentPatch)
    (hst : st.incident.status = "resolved") :
    (∀ ns, normalize_status payload.status = .ok ns → ns ≠ "resolved" →
      apply_patch clk k st payload =
        (st, k, some (.invalidTransition "resolved" ns))) ∧
    (normalize_status payload.status = .ok "resolved" →
      ∀ a b, (apply_patch clk k st payload).2.2 ≠
        some (ApiError.invalidTransition a b)) ∧
    (apply_patches clk k st ps).incident.status = "resolved" := by
  refine ⟨?_, ?_, apply_patches_resolved ps hst⟩
  · intro ns hns hne
    unfold apply_patch
    rw [patch_from_resolved_diff hst hns hne]
  · intro hns a b hc
    have hpe : patch_incident clk k st payload =
        .error (.invalidTransition a b) := by
      unfold apply_patch at hc
      cases hpi : patch_incident clk k st payload with
      | error e =>
        simp only [hpi, Option.some.injEq] at hc
        rw [hc]
      | ok r =>
        obtain ⟨st2, k2⟩ := r
        simp only [hpi] at hc
        cases hc
    obtain ⟨-, hnsb, hbne, -⟩ := patch_incident_transition_error_spec hpe
    rw [hns] at hnsb
    rw [Except.ok.injEq] at hnsb
    rw [← hnsb] at hbne
    exact hbne hst.symm

/--
**C4 (amended)**: within one mutation the incident-record timestamps written
by the final update come from a single `now` sample: `create` stamps
`created_at` and `updated_at` from one sample, and a patch that resolves the
incident stamps `resolved_at` equal to the committed `updated_at`.  (The
original claim that *every* timestamp of the operation uses one sample is
refuted separately: each timeline append draws its own sample.)
-/
theorem claim_C4_single_now_for_record_fields :
    (∀ (clk : Nat → Int) (k : Nat) (iid t d p : String) (st2 : St) (k2 : Nat),
      create_incident clk k iid t d p = .ok (st2, k2) →
      st2.incident.updated_at = st2.incident.created_at) ∧
    (∀ (clk : Nat → Int) (k : Nat) (st : St) (payload : IncidentPatch)
      (st2 : St) (k2 : Nat),
      patch_incident clk k st payload = .ok (st2, k2) →
      st.incident.status ≠ "resolved" → st2.incident.status = "resolved" →
      st2.incident.resolved_at = some st2.incident.updated_at) := by
  constructor
  · intro clk k iid t d p st2 k2 h
    obtain ⟨-, -, -, -, hca, hua⟩ := create_incident_ok_spec h
    rw [hca, hua]
  · intro clk k st payload st2 k2 h hold hnew
    obtain ⟨ns, -, hst2, -, -, -, hset, -, -⟩ := patch_incident_ok_spec h
    exact (hset ⟨hst2 ▸ hnew, hold⟩).1

/--
**C4 (counterexample)**: the operation does *not* sample the clock exactly
once: with the clock `clkMin` (whose samples 0, 60, 120, … are pairwise
distinct), a single `create` stamps the incident record with sample 0 but
its `created` timeline event with sample 60, so one request observes two
different `now` values, contradicting the claim that every timestamp the
operation writes equals one single instant.
-/
theorem claim_C4_counterexample :
    (create_incident clkMin 0 "i1" "Checkout down" "Errors spiking" "P0").toOption.map
      (fun r => (r.1.incident.created_at, r.1.incident.updated_at,
        r.1.timeline.map (fun e => e.created_at))) =
      some (0, 0, [60]) ∧ (0 : Int) ≠ 60 := by
  constructor
  · rfl
  · decide

/--
**C5**: every operation preserves the incident invariant: `create`
establishes it (open, no resolution fields), every `apply_patch` preserves
it (the three fields are absent while not resolved and present once
resolved), and once an incident is resolved no later patch clears or changes
the stored resolution fields.
-/
theorem claim_C5_resolution_fields_invariant :
    (∀ (clk : Nat → Int) (k : Nat) (iid t d p : String) (st2 : St) (k2 : Nat),
      create_incident clk k iid t d p = .ok (st2, k2) →
      ResolvedInv st2.incident) ∧
    (∀ (clk : Nat → Int) (k : Nat) (st : St) (payload : IncidentPatch),
      ResolvedInv st.incident →
      ResolvedInv (apply_patch clk k st payload).1.incident) ∧
    (∀ (clk : Nat → Int) (k : Nat) (st : St) (payload : IncidentPatch),
      st.incident.status = "resolved" →
      (apply_patch clk k st payload).1.incident.resolved_at =
        st.incident.resolved_at ∧
      (apply_patch clk k st payload).1.incident.resolved_by =
        st.incident.resolved_by ∧
      (apply_patch clk k st payload).1.incident.resolution_notes =
        st.incident.resolution_notes) := by
  refine ⟨?_, ?_, ?_⟩
  · intro clk k iid t d p st2 k2 h
    obtain ⟨hs, h1, h2, h3, -, -⟩ := create_incident_ok_spec h
    constructor
    · intro _
      exact ⟨h1, h2, h3⟩
    · intro hc
      rw [hs] at hc
      exact absurd hc (by decide)
  · intro clk k st payload hinv
    exact apply_patch_preserves_inv hinv
  · intro clk k st payload hst
    exact (apply_patch_resolved_frozen hst).2

/--
**C10**: the second, duplicated priority block is dead: called as
`patch_incident` calls it — after the first block has already stored a
differing priority and re-read the row — it either fails on an invalid value
(so nothing commits) or changes nothing and appends nothing, so its stray
`resolution_notes` append is unreachable; consequently a successful patch
appends at most one `priority_changed` event, and appends a
`resolution_notes` event only as part of the fixed resolution sequence
(exactly one when resolving, zero otherwise).
-/
theorem claim_C10_second_priority_block_dead (clk : Nat → Int) (k : Nat)
    (tl : List TimelineEvent) (row : Incident) (pr : Option String)
    (row1 : Incident) (tl1 : List TimelineEvent) (k1 : Nat)
    (hb1 : patchPrioBlock1 clk k tl row pr = .ok (row1, tl1, k1)) :
    (∀ (clk2 : Nat → Int) (k2 : Nat) (tl2 : List TimelineEvent)
      (iid : String) (rn : Option String) (p1 : String)
      (tlx : List TimelineEvent) (kx : Nat),
      patchPrioBlock2 clk2 k2 tl2 iid pr row1.priority rn =
        .ok (p1, tlx, kx) →
      p1 = row1.priority ∧ tlx = tl2 ∧ kx = k2) ∧
    (∀ (st : St) (payload : IncidentPatch) (st2 : St) (k2q : Nat),
      patch_incident clk k st payload = .ok (st2, k2q) →
      ∃ app, st2.timeline = st.timeline ++ app ∧
        countKind "priority_changed" app ≤ 1 ∧
        countKind "resolution_notes" app =
          (if st2.incident.status = "resolved" ∧
              st.incident.status ≠ "resolved" then 1 else 0)) := by
  constructor
  · intro clk2 k2 tl2 iid rn p1 tlx kx hok
    rcases patchPrioBlock2_noop_or_error hb1 clk2 k2 tl2 iid rn with
      h2 | ⟨e, h2⟩
    · rw [h2] at hok
      simp only [Except.ok.injEq, Prod.mk.injEq] at hok
      exact ⟨hok.1.symm, hok.2.1.symm, hok.2.2.symm⟩
    · rw [h2] at hok
      cases hok
  · intro st payload st2 k2q h
    obtain ⟨ns, -, hst2, -, -, -, -, -, app, happ, hc1, hc2⟩ :=
      patch_incident_ok_spec h
    exact ⟨app, happ, hc1, by rw [hst2]; exact hc2⟩

/-- The first priority block is an identity when the supplied priority
normalizes to the row's current priority. -/
theorem patchPrioBlock1_same {clk : Nat → Int} {k : Nat}
    {tl : List TimelineEvent} {row : Incident} {ps : String}
    (hv : normalize_priority ps = .ok row.priority) :
    patchPrioBlock1 clk k tl row (some ps) = .ok (row, tl, k) := by
  have hps : ps ≠ "" := normalize_priority_ok_ne_empty hv
  simp [patchPrioBlock1, if_neg hps, hv]

/--
**C1 (amended)**: a patch whose requested status equals the current status,
whose requested priority is absent or equal to the current priority, and
which carries a non-blank note, succeeds and appends exactly two timeline
events: one of kind `note` (from the first, duplicated note block) and one
of kind `note_added` — so exactly one `note_added` event, zero
`status_changed` and zero `priority_changed` events, but two events in
total rather than the one the original claim asserts.
-/
theorem claim_C1_note_only_patch (clk : Nat → Int) (k : Nat) (st : St)
    (payload : IncidentPatch) (n : String)
    (hs : normalize_status payload.status = .ok st.incident.status)
    (hp : payload.priority = none ∨
      ∃ ps, payload.priority = some ps ∧
        normalize_priority ps = .ok st.incident.priority)
    (hn : payload.note = some n) (hnb : pyStrip n ≠ "") :
    patch_incident clk k st payload =
      .ok ({ incident := { st.incident with updated_at := clk (k + 1) }
             timeline := st.timeline ++
               [{ incident_id := st.incident.id
                  event_type := "note"
                  created_at := clk k
                  old_value := none
                  new_value := some (pyStrip n) },
                { incident_id := st.incident.id
                  event_type := "note_added"
                  created_at := clk (k + 2)
                  old_value := none
                  new_value := some (pyStrip n) }] }, k + 3) := by
  have hne : n ≠ "" := pyStrip_ne_empty_of hnb
  have hb1 : patchPrioBlock1 clk k st.timeline st.incident payload.priority =
      .ok (st.incident, st.timeline, k) := by
    rcases hp with hpn | ⟨ps, hps, hv⟩
    · rw [hpn]
      rfl
    · rw [hps]
      exact patchPrioBlock1_same hv
  have hb2 : patchPrioBlock2 clk (k + 2) (st.timeline ++
      [{ incident_id := st.incident.id
         event_type := "note"
         created_at := clk k
         old_value := none
         new_value := some (pyStrip n) }]) st.incident.id payload.priority
      st.incident.priority st.incident.resolution_notes =
      .ok (st.incident.priority, st.timeline ++
        [{ incident_id := st.incident.id
           event_type := "note"
           created_at := clk k
           old_value := none
           new_value := some (pyStrip n) }], k + 2) := by
    rcases hp with hpn | ⟨ps, hps, hv⟩
    · rw [hpn]
      rfl
    · rw [hps]
      exact patchPrioBlock2_ok_of_prio_eq hv
  have hnores : ¬(st.incident.status = "resolved" ∧
      st.incident.status ≠ "resolved") := fun hc => hc.2 hc.1
  have hnosc : ¬(st.incident.status ≠ st.incident.status) := fun hc => hc rfl
  unfold patch_incident
  simp only [hs, if_neg (show ¬(st.incident.status ≠ st.incident.status ∧
    st.incident.status ∉ STATUS_TRANSITIONS st.incident.status) from
    fun hc => hc.1 rfl), hb1]
  simp only [patchNoteBlock1, hn, if_pos (And.intro hne hnb), add_timeline]
  simp only [hb2]
  simp only [patchNoteBlock2, hn, if_pos hnb, add_timeline]
  simp only [if_neg hnores]
  simp only [if_neg hnosc]
  simp

/--
**C1 (counterexample)**: the claim as stated is false: a same-status,
same-priority patch of the incident `sampleOpen` that only adds the note
`"check logs"` satisfies all of the claim hypotheses, yet it appends two
timeline events (one `note`, one `note_added`), not exactly one event in
total.
-/
theorem claim_C1_counterexample :
    (patch_incident clkMin 0 sampleOpen
        { status := "open", note := some "check logs" }).toOption.map
      (fun r => r.1.timeline.map (fun e => e.event_type)) =
      some ["note", "note_added"] ∧
    (["note", "note_added"].length = 1) = False := by
  constructor
  · rfl
  · decide

/--
**C2 (amended)**: a patch that requests `resolved` from a state that has a
direct edge to `resolved` (`investigating` or `mitigated`), carries an
absent-or-valid priority, and omits `resolved_by` or supplies blank
`resolution_notes`, fails with one of the two precondition errors and the
committed state is exactly the pre-call state, even when the patch also
carried a priority change or a note.  (From `open` — also a non-resolved
state — the original claim fails: the transition check rejects
`open → resolved` first; see the counterexample.)
-/
theorem claim_C2_resolve_preconditions (clk : Nat → Int) (k : Nat) (st : St)
    (payload : IncidentPatch)
    (hst : st.incident.status = "investigating" ∨
      st.incident.status = "mitigated")
    (hs : normalize_status payload.status = .ok "resolved")
    (hp : payload.priority = none ∨
      ∃ ps v, payload.priority = some ps ∧ normalize_priority ps = .ok v)
    (hpre : truthyOpt payload.resolved_by = false ∨
      payload.resolution_notes = none ∨
      ∃ s, payload.resolution_notes = some s ∧ pyStrip s = "") :
    ∃ e, apply_patch clk k st payload = (st, k, some e) ∧
      (e = ApiError.resolvedByRequired ∨
       e = ApiError.resolutionNotesRequired) := by
  have hold : st.incident.status ≠ "resolved" := by
    rcases hst with h | h <;> rw [h] <;> decide
  have hmem : "resolved" ∈ STATUS_TRANSITIONS st.incident.status := by
    rcases hst with h | h <;> rw [h] <;> decide
  obtain ⟨row1, tl1, k1, hb1⟩ :=
    @patchPrioBlock1_ok_of_valid clk k st.timeline st.incident
      payload.priority hp
  obtain ⟨tl2x, k2x, hnb1⟩ :
      ∃ c d, patchNoteBlock1 clk k1 tl1 row1.id payload.note = (c, d) :=
    ⟨_, _, rfl⟩
  have hb2 : patchPrioBlock2 clk (k2x + 1) tl2x row1.id payload.priority
      row1.priority row1.resolution_notes =
      .ok (row1.priority, tl2x, k2x + 1) := by
    rcases hp with hpn | ⟨ps, v, hps, hv⟩
    · rw [hpn]
      rfl
    · have hp1 : row1.priority = v := by
        rw [hps] at hb1
        exact patchPrioBlock1_ok_prio hb1 hv
      rw [hps, hp1]
      exact patchPrioBlock2_ok_of_prio_eq hv
  obtain ⟨tl4x, k5x, hnb2⟩ :
      ∃ c d, patchNoteBlock2 clk (k2x + 1) tl2x row1.id payload.note =
        (c, d) := ⟨_, _, rfl⟩
  have hold2 : "resolved" ≠ st.incident.status := fun hc => hold hc.symm
  rcases @patchResolveBlock_precondition clk k5x tl4x row1 (clk k2x)
      payload.resolved_by payload.resolution_notes hpre with hrs | hrs
  · have hpatch : patch_incident clk k st payload =
        .error .resolvedByRequired := by
      unfold patch_incident
      simp [hs, hold, hold2, hmem, hb1, hnb1, hb2, hnb2, hrs]
    refine ⟨.resolvedByRequired, ?_, Or.inl rfl⟩
    unfold apply_patch
    rw [hpatch]
  · have hpatch : patch_incident clk k st payload =
        .error .resolutionNotesRequired := by
      unfold patch_incident
      simp [hs, hold, hold2, hmem, hb1, hnb1, hb2, hnb2, hrs]
    refine ⟨.resolutionNotesRequired, ?_, Or.inr rfl⟩
    unfold apply_patch
    rw [hpatch]

/--
**C2 (counterexample)**: the claim quantifies over every non-resolved state,
but from `open` a patch requesting `resolved` while omitting `resolved_by`
fails with the *transition* error (`open → resolved` is not an edge), not
with a precondition error, so "always fails with a PreconditionError" is
false as stated.
-/
theorem claim_C2_counterexample :
    sampleOpen.incident.status = "open" ∧
    patch_incident clkMin 0 sampleOpen { status := "resolved" } =
      .error (.invalidTransition "open" "resolved") ∧
    (∀ e : ApiError,
      ApiError.invalidTransition "open" "resolved" = e →
      e ≠ .resolvedByRequired ∧ e ≠ .resolutionNotesRequired) := by
  refine ⟨rfl, ?_, ?_⟩
  · rfl
  · intro e he
    rw [← he]
    decide

/-- A most-severe-tier (`P0`, 30-minute budget) incident created at
instant 0, still open. -/
def p0At0 : Incident :=
  { id := "p0"
    title := "Checkout failing"
    description := "Spike in 500s"
    priority := "P0"
    status := "open"
    created_at := 0
    updated_at := 0
    resolved_at := none
    resolved_by := none
    resolution_notes := none }

/--
**C6**: for every non-resolved incident, breach detection computes
`age = floor((now - created_at) in minutes)` and
`overdue = max(0, age - SLA budget)`, reports the incident as a breach —
with exactly those `age`/`sla`/`overdue` figures — iff `overdue > 0`; in
particular the `P0` incident aged 31 minutes is a breach with overdue 1 and
at 29 minutes it is not a breach.
-/
theorem claim_C6_breach_rule (now : Int) (inc : Incident)
    (h : inc.status ≠ "resolved") :
    (compute_breaches now [inc] = [] ↔
      ¬ 0 < max 0 (minutes_between inc.created_at now -
        SLA_MINUTES inc.priority)) ∧
    (0 < max 0 (minutes_between inc.created_at now -
        SLA_MINUTES inc.priority) →
      compute_breaches now [inc] =
        [{ id := inc.id
           title := inc.title
           priority := inc.priority
           status := inc.status
           created_at := inc.created_at
           age_minutes := minutes_between inc.created_at now
           sla_minutes := SLA_MINUTES inc.priority
           overdue_minutes := max 0 (minutes_between inc.created_at now -
             SLA_MINUTES inc.priority) }]) ∧
    compute_breaches (31 * 60) [p0At0] =
      [{ id := "p0"
         title := "Checkout failing"
         priority := "P0"
         status := "open"
         created_at := 0
         age_minutes := 31
         sla_minutes := 30
         overdue_minutes := 1 }] ∧
    compute_breaches (29 * 60) [p0At0] = [] := by
  have hiff : (0 < max 0 (minutes_between inc.created_at now -
      SLA_MINUTES inc.priority)) ↔
      SLA_MINUTES inc.priority < minutes_between inc.created_at now := by
    rw [lt_max_iff]
    omega
  refine ⟨?_, ?_, by decide, by decide⟩
  · rw [hiff]
    by_cases h0 : SLA_MINUTES inc.priority < minutes_between inc.created_at now
    · simp [compute_breaches, sortByOverdueDesc, insertByOverdueDesc, h0, h]
    · simp [compute_breaches, sortByOverdueDesc, h0]
  · intro h0
    rw [hiff] at h0
    simp [compute_breaches, sortByOverdueDesc, insertByOverdueDesc, h0, h]

/--
**C7**: the derived health status is `red` iff at least one `P0`-tier breach
exists among the non-resolved incidents; it is `green` iff no reason trigger
fired, and `amber` iff some reason fired but no `P0` breach exists.
-/
theorem claim_C7_health_status (now : Int) (rows : List Incident) :
    ((ops_health_status_reasons now rows).1 = "red" ↔
      ∃ b ∈ compute_breaches now
        (rows.filter (fun i => decide (i.status ≠ "resolved"))),
        b.priority = "P0") ∧
    ((ops_health_status_reasons now rows).1 = "green" ↔
      (ops_health_status_reasons now rows).2 = []) ∧
    ((ops_health_status_reasons now rows).1 = "amber" ↔
      ((ops_health_status_reasons now rows).2 ≠ [] ∧
       ¬ ∃ b ∈ compute_breaches now
          (rows.filter (fun i => decide (i.status ≠ "resolved"))),
          b.priority = "P0")) := by
  have hPex : ((compute_breaches now
      (rows.filter (fun i => decide (i.status ≠ "resolved")))).filter
        (fun b => decide (b.priority = "P0")) ≠ []) ↔
      ∃ b ∈ compute_breaches now
        (rows.filter (fun i => decide (i.status ≠ "resolved"))),
        b.priority = "P0" := by
    simp [List.filter_eq_nil_iff]
  unfold ops_health_status_reasons
  simp only []
  by_cases h1 : (compute_breaches now
      (rows.filter (fun i => decide (i.status ≠ "resolved")))).filter
        (fun b => decide (b.priority = "P0")) ≠ []
  · have hex := hPex.mp h1
    simp only [ne_eq, decide_not] at hex
    rw [if_pos h1]
    by_cases h2 : (compute_breaches now
        (rows.filter (fun i => decide (i.status ≠ "resolved")))).length ≥
          BREACH_THRESHOLD_TOTAL
    · rw [if_pos h2]
      by_cases h3 : (aging_buckets now
          (rows.filter (fun i => decide (i.status ≠ "resolved")))).gte_24h ≥
            AGING_THRESHOLD_24H
      · rw [if_pos h3, if_pos (by simp)]
        exact ⟨by simp [hex], by simp, by simp [hex]⟩
      · rw [if_neg h3, if_pos (by simp)]
        exact ⟨by simp [hex], by simp, by simp [hex]⟩
    · rw [if_neg h2]
      by_cases h3 : (aging_buckets now
          (rows.filter (fun i => decide (i.status ≠ "resolved")))).gte_24h ≥
            AGING_THRESHOLD_24H
      · rw [if_pos h3, if_pos (by simp)]
        exact ⟨by simp [hex], by simp, by simp [hex]⟩
      · rw [if_neg h3, if_pos (by simp)]
        exact ⟨by simp [hex], by simp, by simp [hex]⟩
  · have hnex : ¬ ∃ b ∈ compute_breaches now
        (rows.filter (fun i => decide (i.status ≠ "resolved"))),
        b.priority = "P0" := fun hx => h1 (hPex.mpr hx)
    simp only [ne_eq, decide_not] at hnex
    rw [if_neg h1]
    by_cases h2 : (compute_breaches now
        (rows.filter (fun i => decide (i.status ≠ "resolved")))).length ≥
          BREACH_THRESHOLD_TOTAL
    · rw [if_pos h2]
      by_cases h3 : (aging_buckets now
          (rows.filter (fun i => decide (i.status ≠ "resolved")))).gte_24h ≥
            AGING_THRESHOLD_24H
      · rw [if_pos h3, if_neg (by simp), if_pos (by simp)]
        exact ⟨by simp [hnex], by simp, by simp [hnex]⟩
      · rw [if_neg h3, if_neg (by simp), if_pos (by simp)]
        exact ⟨by simp [hnex], by simp, by simp [hnex]⟩
    · rw [if_neg h2]
      by_cases h3 : (aging_buckets now
          (rows.filter (fun i => decide (i.status ≠ "resolved")))).gte_24h ≥
            AGING_THRESHOLD_24H
      · rw [if_pos h3, if_neg (by simp), if_pos (by simp)]
        exact ⟨by simp [hnex], by simp, by simp [hnex]⟩
      · rw [if_neg h3, if_neg (by simp), if_neg (by simp)]
        exact ⟨by simp [hnex], by simp, by simp [hnex]⟩

/-- An open incident created at instant 0 (used to exercise the aging bucket
boundaries by varying `now`). -/
def agedOpen : Incident :=
  { id := "a1"
    title := "Backlog item"
    description := "Support queue building"
    priority := "P3"
    status := "open"
    created_at := 0
    updated_at := 0
    resolved_at := none
    resolved_by := none
    resolution_notes := none }

/--
**C8**: every non-resolved incident lands in exactly one of the five aging
buckets, the boundaries are closed-open (ages 14, 15, 239, 240, 1439, 1440
land in `<15m`, `15-60m`, `1-4h`, `4-24h`, `4-24h`, `≥24h` respectively),
and resolved incidents are excluded entirely.
-/
theorem claim_C8_aging_buckets (now : Int) (inc : Incident) :
    (inc.status ≠ "resolved" → bucketTotal (aging_buckets now [inc]) = 1) ∧
    (inc.status = "resolved" → aging_buckets now [inc] = ⟨0, 0, 0, 0, 0⟩) ∧
    aging_buckets (14 * 60) [agedOpen] = ⟨1, 0, 0, 0, 0⟩ ∧
    aging_buckets (15 * 60) [agedOpen] = ⟨0, 1, 0, 0, 0⟩ ∧
    aging_buckets (239 * 60) [agedOpen] = ⟨0, 0, 1, 0, 0⟩ ∧
    aging_buckets (240 * 60) [agedOpen] = ⟨0, 0, 0, 1, 0⟩ ∧
    aging_buckets (1439 * 60) [agedOpen] = ⟨0, 0, 0, 1, 0⟩ ∧
    aging_buckets (1440 * 60) [agedOpen] = ⟨0, 0, 0, 0, 1⟩ := by
  refine ⟨?_, ?_, by decide, by decide, by decide, by decide, by decide,
    by decide⟩
  · intro h
    simp only [aging_buckets, List.foldl_cons, List.foldl_nil, bucketAdd,
      if_neg h]
    split
    · decide
    · split
      · decide
      · split
        · decide
        · split
          · decide
          · decide
  · intro h
    simp [aging_buckets, bucketAdd, h]

/-- The case-folded classifier input of the C9 scenario. -/
def billingText : List Char :=
  pyLowerData ("Billing portal slow" ++ "\n" ++ "Latency over 3s in EU region")

/--
**C9**: `classify("Billing portal slow", "Latency over 3s in EU region")`
returns the mid tier `P2` — neither the most-severe `P0` nor the
least-severe default `P3` — because the text has no `outage` match, no
`payment`-and-`failed` match, fewer than two `P0`-set hits, fewer than two
`P1`-set hits and no `activation`-and-`delay` match, but at least one
`P2`-set hit.
-/
theorem claim_C9_triage_billing :
    (triage_rules "Billing portal slow" "Latency over 3s in EU region").1 =
      "P2" ∧
    ("P2" : String) ≠ "P0" ∧ ("P2" : String) ≠ "P3" ∧
    listInfixOf "outage".data billingText = false ∧
    (listInfixOf "payment".data billingText = false ∨
     listInfixOf "failed".data billingText = false) ∧
    hitCount p0_hits billingText < 2 ∧
    hitCount p1_hits billingText < 2 ∧
    (listInfixOf "activation".data billingText = false ∨
     listInfixOf "delay".data billingText = false) ∧
    1 ≤ hitCount p2_hits billingText := by
  decide

/-! ### Witnesses: each claim theorem instantiated at a concrete input -/

/-- Witness for the C1 theorem: the note-only patch of `sampleOpen`. -/
theorem claim_C1_note_only_patch_witness :
    patch_incident clkMin 0 sampleOpen
      { status := "open", note := some "check logs" } =
      .ok ({ incident := { sampleOpen.incident with updated_at := 60 }
             timeline :=
               [{ incident_id := "i1"
                  event_type := "note"
                  created_at := 0
                  old_value := none
                  new_value := some "check logs" },
                { incident_id := "i1"
                  event_type := "note_added"
                  created_at := 120
                  old_value := none
                  new_value := some "check logs" }] }, 3) :=
  claim_C1_note_only_patch clkMin 0 sampleOpen
    { status := "open", note := some "check logs" } "check logs" rfl
    (Or.inl rfl) rfl (by decide)

/-- Witness for the C2 theorem: resolving `sampleInvestigating` without
`resolved_by` hits the precondition check and commits nothing. -/
theorem claim_C2_resolve_preconditions_witness :
    ∃ e, apply_patch clkMin 0 sampleInvestigating { status := "resolved" } =
      (sampleInvestigating, 0, some e) ∧
      (e = ApiError.resolvedByRequired ∨
       e = ApiError.resolutionNotesRequired) :=
  claim_C2_resolve_preconditions clkMin 0 sampleInvestigating
    { status := "resolved" } (Or.inl rfl) rfl (Or.inl rfl) (Or.inl rfl)

/-- Witness for the C3 theorem on the concrete resolved incident. -/
theorem claim_C3_resolved_is_terminal_witness :
    apply_patch clkMin 0 sampleResolved { status := "investigating" } =
      (sampleResolved, 0,
        some (.invalidTransition "resolved" "investigating")) ∧
    (apply_patches clkMin 0 sampleResolved
      [{ status := "resolved" }]).incident.status = "resolved" := by
  have h := claim_C3_resolved_is_terminal clkMin 0 sampleResolved
    { status := "investigating" } [{ status := "resolved" }] rfl
  exact ⟨h.1 "investigating" rfl (by decide), h.2.2⟩

/-- The state produced by creating `p0At0`-like data with `clkMin`. -/
def stCreatedP0 : St :=
  { incident :=
      { id := "i1"
        title := "Checkout down"
        description := "Errors spiking"
        priority := "P0"
        status := "open"
        created_at := 0
        updated_at := 0
        resolved_at := none
        resolved_by := none
        resolution_notes := none }
    timeline := [{ incident_id := "i1"
                   event_type := "created"
                   created_at := 60
                   old_value := none
                   new_value := some "P0 open" }] }

/-- The state produced by resolving `sampleInvestigating` with `clkMin`. -/
def stResolvedOut : St :=
  { incident :=
      { sampleOpen.incident with
        status := "resolved"
        updated_at := 0
        resolved_at := some 0
        resolved_by := some "On-call"
        resolution_notes := some "fixed it" }
    timeline :=
      [{ incident_id := "i1"
         event_type := "resolved_by"
         created_at := 60
         old_value := none
         new_value := some "On-call" },
       { incident_id := "i1"
         event_type := "resolution_notes"
         created_at := 120
         old_value := none
         new_value := some "added" },
       { incident_id := "i1"
         event_type := "resolved_at"
         created_at := 180
         old_value := none
         new_value := some "0" },
       { incident_id := "i1"
         event_type := "status_changed"
         created_at := 240
         old_value := some "investigating"
         new_value := some "resolved" }] }

/-- Witness for the C4 theorem: `create` reuses one sample for both record
timestamps, and the resolving patch stamps `resolved_at = updated_at`. -/
theorem claim_C4_single_now_for_record_fields_witness :
    stCreatedP0.incident.updated_at = stCreatedP0.incident.created_at ∧
    stResolvedOut.incident.resolved_at =
      some stResolvedOut.incident.updated_at := by
  constructor
  · exact claim_C4_single_now_for_record_fields.1 clkMin 0 "i1"
      "Checkout down" "Errors spiking" "P0" stCreatedP0 2 rfl
  · exact claim_C4_single_now_for_record_fields.2 clkMin 0
      sampleInvestigating
      { status := "resolved", resolved_by := some "On-call"
        resolution_notes := some " fixed it " } stResolvedOut 5 rfl
      (by decide) rfl

/-- Witness for the C5 theorem: the invariant holds after a concrete create,
is preserved by a concrete patch, and the resolution fields of
`sampleResolved` survive a concrete patch untouched. -/
theorem claim_C5_resolution_fields_invariant_witness :
    ResolvedInv stCreatedP0.incident ∧
    ResolvedInv (apply_patch clkMin 0 sampleOpen
      { status := "open", note := some "check" }).1.incident ∧
    (apply_patch clkMin 0 sampleResolved
      { status := "resolved", priority := some "P1" }).1.incident.resolved_at
      = sampleResolved.incident.resolved_at := by
  refine ⟨?_, ?_, ?_⟩
  · exact claim_C5_resolution_fields_invariant.1 clkMin 0 "i1"
      "Checkout down" "Errors spiking" "P0" stCreatedP0 2 rfl
  · exact claim_C5_resolution_fields_invariant.2.1 clkMin 0 sampleOpen
      { status := "open", note := some "check" }
      ⟨fun _ => ⟨rfl, rfl, rfl⟩, fun hc => absurd hc (by decide)⟩
  · exact (claim_C5_resolution_fields_invariant.2.2 clkMin 0 sampleResolved
      { status := "resolved", priority := some "P1" } rfl).1

/-- Witness for the C6 theorem at the 31-minute `P0` scenario. -/
theorem claim_C6_breach_rule_witness :
    compute_breaches (31 * 60) [p0At0] =
      [{ id := "p0"
         title := "Checkout failing"
         priority := "P0"
         status := "open"
         created_at := 0
         age_minutes := 31
         sla_minutes := 30
         overdue_minutes := 1 }] ∧
    compute_breaches (29 * 60) [p0At0] = [] :=
  ⟨(claim_C6_breach_rule (31 * 60) p0At0 (by decide)).2.2.1,
   (claim_C6_breach_rule (29 * 60) p0At0 (by decide)).2.2.2⟩

/-- Witness for the C7 theorem: one breached `P0` incident makes the board
red; no incidents make it green. -/
theorem claim_C7_health_status_witness :
    (ops_health_status_reasons (31 * 60) [p0At0]).1 = "red" ∧
    (ops_health_status_reasons 0 []).1 = "green" := by
  constructor
  · exact (claim_C7_health_status (31 * 60) [p0At0]).1.mpr
      ⟨{ id := "p0"
         title := "Checkout failing"
         priority := "P0"
         status := "open"
         created_at := 0
         age_minutes := 31
         sla_minutes := 30
         overdue_minutes := 1 }, by decide, rfl⟩
  · exact (claim_C7_health_status 0 []).2.1.mpr rfl

/-- Witness for the C8 theorem: a non-resolved incident occupies exactly one
bucket; a resolved one occupies none. -/
theorem claim_C8_aging_buckets_witness :
    bucketTotal (aging_buckets 0 [agedOpen]) = 1 ∧
    aging_buckets 0 [{ agedOpen with status := "resolved" }] =
      ⟨0, 0, 0, 0, 0⟩ :=
  ⟨(claim_C8_aging_buckets 0 agedOpen).1 (by decide),
   (claim_C8_aging_buckets 0 { agedOpen with status := "resolved" }).2.1 rfl⟩

/-- The row and timeline produced by the first priority block on
`sampleOpen` with priority `P1` and clock `clkMin`. -/
def row1AfterP1 : Incident :=
  { sampleOpen.incident with priority := "P1", updated_at := 60 }

def tl1AfterP1 : List TimelineEvent :=
  [{ incident_id := "i1"
     event_type := "priority_changed"
     created_at := 0
     old_value := some "P2"
     new_value := some "P1" }]

/-- The state committed by patching `sampleOpen` with priority `P1`. -/
def stPrioOut : St :=
  { incident :=
      { sampleOpen.incident with
        priority := "P1"
        updated_at := 120 }
    timeline := tl1AfterP1 }

/-- Witness for the C10 theorem: after the first block has applied the
`P2 → P1` change, the second block is an identity, and the committed patch
appended one `priority_changed` and zero `resolution_notes` events. -/
theorem claim_C10_second_priority_block_dead_witness :
    ("P1" = row1AfterP1.priority ∧ ([] : List TimelineEvent) = [] ∧ 5 = 5) ∧
    (∃ app, stPrioOut.timeline = sampleOpen.timeline ++ app ∧
      countKind "priority_changed" app ≤ 1 ∧
      countKind "resolution_notes" app =
        (if stPrioOut.incident.status = "resolved" ∧
            sampleOpen.incident.status ≠ "resolved" then 1 else 0)) := by
  have h := claim_C10_second_priority_block_dead clkMin 0 []
    sampleOpen.incident (some "P1") row1AfterP1 tl1AfterP1 2 rfl
  exact ⟨h.1 clkMin 5 [] "i1" none "P1" [] 5 rfl,
    h.2 sampleOpen { status := "open", priority := some "P1" } stPrioOut 3 rfl⟩

end OpsTriage
